import Mathlib

/-!
Shallow embedding of the `my-go-packages` repository (packages `env`, `os`,
`signals`, `srv`) and proofs about its graceful-shutdown orchestrator and
environment-variable accessors.

Conventions of the embedding:
- The process environment is an association list from variable names to values;
  `lookupEnv` models `os.LookupEnv` (found vs not found).
- Go errors are modelled by the inductive `GoError`; a Go `error` return value
  is an `Option GoError` (`none` = `nil`).
- `strconv.Atoi` is modelled by `atoi` (optional sign followed by decimal
  digits; machine-int range errors are out of scope since no claim depends on
  overflow) and `strconv.ParseBool` by `parseBool` (the exact set of strings
  the Go standard library accepts).
-/

namespace MyGoPackages

/-- Process environment: association list from variable name to value. -/
abbrev EnvState := List (String × String)

/-- Model of `os.LookupEnv`: first binding of the name, if any. -/
def lookupEnv : EnvState → String → Option String
  | [], _ => none
  | (k, v) :: rest, name => if k = name then some v else lookupEnv rest name

/-- Decimal digit value of a character, if it is one. -/
def digitVal (c : Char) : Option Nat :=
  if '0' ≤ c ∧ c ≤ '9' then some (c.toNat - '0'.toNat) else none

/-- Accumulate decimal digits; fails on the first non-digit. -/
def parseDigitsAux : List Char → Nat → Option Nat
  | [], acc => some acc
  | c :: cs, acc =>
    match digitVal c with
    | some d => parseDigitsAux cs (acc * 10 + d)
    | none => none

/-- Parse a non-empty all-digit string of characters. -/
def parseDigits : List Char → Option Nat
  | [] => none
  | cs => parseDigitsAux cs 0

/-- Model of `strconv.Atoi`: optional sign, then one or more decimal digits.
Returns `none` exactly when Go returns a non-nil error (syntax error). -/
def atoi (s : String) : Option Int :=
  match s.toList with
  | '+' :: rest => (parseDigits rest).map (fun n => (n : Int))
  | '-' :: rest => (parseDigits rest).map (fun n => -(n : Int))
  | cs => (parseDigits cs).map (fun n => (n : Int))

/-- Model of `strconv.ParseBool`: the exact strings the Go standard library
accepts, mapped to their boolean value; anything else is a syntax error. -/
def parseBool (s : String) : Option Bool :=
  if s = "1" ∨ s = "t" ∨ s = "T" ∨ s = "TRUE" ∨ s = "true" ∨ s = "True" then
    some true
  else if s = "0" ∨ s = "f" ∨ s = "F" ∨ s = "FALSE" ∨ s = "false" ∨ s = "False" then
    some false
  else
    none

/-- Go error values that appear in this repository. Each constructor records
the data the corresponding Go error message carries:
- `notSet name` is the error built with format string `"%s is not set"`
  (identical in packages `env` and `os`);
- `envIntParse name` is `"%s can\x27t be parsed as an integer"` from `env`;
- `envBoolParse name` is `"%s can\x27t be parsed as a boolean"` from `env`;
- `atoiSyntax input` is the raw `strconv.Atoi` error
  `"strconv.Atoi: parsing %q: invalid syntax"` returned by package `os`;
- `parseBoolSyntax input` is the raw `strconv.ParseBool` error from `os`;
- `serverClosed` is `http.ErrServerClosed`;
- `other msg` is any other error (TLS load failure, bind failure, ...). -/
inductive GoError
  | notSet (varName : String)
  | envIntParse (varName : String)
  | envBoolParse (varName : String)
  | atoiSyntax (input : String)
  | parseBoolSyntax (input : String)
  | serverClosed
  | other (msg : String)
  deriving DecidableEq

namespace env

/-- Embedding of `env.GetEnv` (src/env/env.go lines 16-25): value of the
variable if set; first variadic default if unset and one was given; the
zero value `""` with a `notSet` error otherwise. -/
def GetEnv (st : EnvState) (varName : String) (params : List String) :
    String × Option GoError :=
  match lookupEnv st varName with
  | none =>
    match params with
    | [] => ("", some (GoError.notSet varName))
    | p :: _ => (p, none)
  | some val => (val, none)

/-- Embedding of `env.GetEnvAsInt` (src/env/env.go lines 34-47): parses the
value with `strconv.Atoi`; a parse failure yields the Atoi result (0 on a
syntax error) together with an error naming the variable. -/
def GetEnvAsInt (st : EnvState) (varName : String) (params : List Int) :
    Int × Option GoError :=
  match lookupEnv st varName with
  | none =>
    match params with
    | [] => (0, some (GoError.notSet varName))
    | p :: _ => (p, none)
  | some val =>
    match atoi val with
    | none => (0, some (GoError.envIntParse varName))
    | some n => (n, none)

/-- Embedding of `env.GetEnvAsBool` (src/env/env.go lines 56-69): parses the
value with `strconv.ParseBool`; a parse failure yields the ParseBool result
(false on a syntax error) together with an error naming the variable. -/
def GetEnvAsBool (st : EnvState) (varName : String) (params : List Bool) :
    Bool × Option GoError :=
  match lookupEnv st varName with
  | none =>
    match params with
    | [] => (false, some (GoError.notSet varName))
    | p :: _ => (p, none)
  | some val =>
    match parseBool val with
    | none => (false, some (GoError.envBoolParse varName))
    | some b => (b, none)

end env

namespace os

/-- Embedding of `os.GetEnvAsInt` (src/os/os.go lines 16-25): identical to the
`env` version except that the result of `strconv.Atoi` is returned directly,
so a parse failure surfaces the raw Atoi error. -/
def GetEnvAsInt (st : EnvState) (varName : String) (params : List Int) :
    Int × Option GoError :=
  match lookupEnv st varName with
  | none =>
    match params with
    | [] => (0, some (GoError.notSet varName))
    | p :: _ => (p, none)
  | some val =>
    match atoi val with
    | none => (0, some (GoError.atoiSyntax val))
    | some n => (n, none)

/-- Embedding of `os.GetEnvAsBool` (src/os/os.go lines 34-43): returns the
result of `strconv.ParseBool` directly. -/
def GetEnvAsBool (st : EnvState) (varName : String) (params : List Bool) :
    Bool × Option GoError :=
  match lookupEnv st varName with
  | none =>
    match params with
    | [] => (false, some (GoError.notSet varName))
    | p :: _ => (p, none)
  | some val =>
    match parseBool val with
    | none => (false, some (GoError.parseBoolSyntax val))
    | some b => (b, none)

end os

/-- The four POSIX termination signals that appear in this repository. -/
inductive Sig
  | sighup
  | sigint
  | sigterm
  | sigquit
  deriving DecidableEq

/-- Signal set registered by `signals.Context` (src/signals/signals.go
lines 17-18): `signal.Notify(sig, SIGHUP, SIGINT, SIGTERM, SIGQUIT)`. -/
def signalsNotifySet : List Sig := [Sig.sighup, Sig.sigint, Sig.sigterm, Sig.sigquit]

/-- Signal set registered by `StartWithGracefulShutdown` (src/srv/srv.go
line 71): `signal.NotifyContext(parentCtx, SIGINT, SIGTERM)`. -/
def srvNotifySet : List Sig := [Sig.sigint, Sig.sigterm]

/-- A cancellable lifecycle token, modelling a `context.Context` produced by
`context.WithCancel` or `signal.NotifyContext`: its only observable state is
whether it has been cancelled. -/
structure LifecycleToken where
  cancelled : Bool
  deriving DecidableEq

/-- Delivery of one OS signal to a token whose cancellation is registered for
`notifySet`: a registered signal cancels the token (cancellation of an
already-cancelled context is a no-op, which the single `cancelled` flag
captures); an unregistered signal leaves the token untouched. -/
def deliverSignal (notifySet : List Sig) (tok : LifecycleToken) (s : Sig) :
    LifecycleToken :=
  if s ∈ notifySet then { cancelled := true } else tok

/-- The value of `ctx.Err()` observed when a `context.WithTimeout` context
becomes done: `canceled` if a cancellation (its own `cancel` or a parent
cancellation) happened strictly before the deadline, `deadlineExceeded`
otherwise. -/
inductive CtxErr
  | canceled
  | deadlineExceeded
  deriving DecidableEq

/-- Error reported by a timeout context with the given deadline when its
`Done` channel fires, as a function of the time (if any) at which it was
cancelled. Times are naturals on an abstract clock. -/
def ctxErrAtDone (deadline : Nat) (cancelledAt : Option Nat) : CtxErr :=
  match cancelledAt with
  | some t => if deadline ≤ t then CtxErr.deadlineExceeded else CtxErr.canceled
  | none => CtxErr.deadlineExceeded

/-- Grace period hard-coded in `signals.Context` (src/signals/signals.go
line 24): 10 seconds. The abstract clock below counts seconds from the
arrival of the termination signal. -/
def signalsGracePeriod : Nat := 10

/-- Time at which `stopCtx()` runs in the signal goroutine of
`signals.Context` (src/signals/signals.go line 35). After `<-sig` returns,
the goroutine executes straight-line code with no blocking operation: it logs,
creates `shutdownCtx`, spawns the watcher goroutine and calls `stopCtx()`, so
on the seconds-granularity clock this happens at time 0. -/
def signalsStopCtxTime : Nat := 0

/-- Time at which the deferred `cancel()` of src/signals/signals.go line 25
runs: the `defer` fires when the signal goroutine returns, which is
immediately after `stopCtx()`, hence also time 0. -/
def signalsDeferredCancelTime : Nat := 0

/-- Time at which `shutdownCtx` of `signals.Context` is cancelled.
`shutdownCtx` is a child of `ctx` (src/signals/signals.go line 24), so it is
cancelled by whichever comes first: the parent cancellation `stopCtx()` or its
own deferred `cancel()`. -/
def signalsShutdownCtxCancelledAt : Option Nat :=
  some (min signalsStopCtxTime signalsDeferredCancelTime)

/-- Whether the watcher goroutine of `signals.Context` (src/signals/signals.go
lines 28-33) calls `log.Fatal` — it does so exactly when `shutdownCtx.Err()`
is `DeadlineExceeded` when `Done` fires. `downstreamShutdownDuration` is how
long the consumers of the returned context take to shut down after the signal;
nothing in the goroutine reads it, which the definition makes visible. -/
def signalsContextWatchdogFatal (downstreamShutdownDuration : Nat) : Bool :=
  ctxErrAtDone signalsGracePeriod signalsShutdownCtxCancelledAt =
    CtxErr.deadlineExceeded

/-- Embedding of `srv.ServerConfig` (src/srv/srv.go lines 18-23). -/
structure ServerConfig where
  TLSCertPath : String
  TLSKeyPath : String
  Port : Int
  TLSEnabled : Bool
  deriving DecidableEq

/-- Observable events of a run of the `srv` package, in program order.
`exited c` is a call to `os.Exit c`; the `cleanup...` events come from the
cleanup-handler goroutines (src/srv/srv.go lines 103-114), indexed by the
position of the handler in the `handlers` argument. -/
inductive Event
  | tlsLoadFailed
  | serverStarted
  | serveFailed
  | shutdownSignalReceived
  | cleanupFailed (i : Nat)
  | cleanupDone (i : Nat)
  | serverShutdownCalled
  | serverShutdownFailed
  | shutdownComplete
  | exited (code : Nat)
  deriving DecidableEq

/-- Embedding of the serve goroutine of `StartWithGracefulShutdown`
(src/srv/srv.go lines 75-87), as the events it emits given the error that
`ListenAndServe`/`ListenAndServeTLS` eventually returns (that call never
returns a nil error): `http.ErrServerClosed` is swallowed, anything else is
logged and followed by `os.Exit(1)`. -/
def serveGoroutine (serveErr : GoError) : List Event :=
  Event.serverStarted ::
    (if serveErr = GoError.serverClosed then []
     else [Event.serveFailed, Event.exited 1])

/-- Embedding of one cleanup goroutine (src/srv/srv.go lines 106-113) for the
handler at index `i`, whose `Shutdown` result is `results.getD i none`: an
error is logged (`cleanupFailed`) and then the deferred `wg.Done()` runs
(`cleanupDone`); nothing else happens either way. -/
def cleanupGoroutine (results : List (Option GoError)) (i : Nat) : List Event :=
  match results.getD i none with
  | some _ => [Event.cleanupFailed i, Event.cleanupDone i]
  | none => [Event.cleanupDone i]

/-- Events of the cleanup fan-out up to the `wg.Wait()` join (src/srv/srv.go
lines 103-114). The goroutines run concurrently; `order` is the order, chosen
by the scheduler, in which they reach completion. `wg.Wait()` returns only
after every spawned goroutine has run `wg.Done()`, which the theorems state as
the hypothesis that every index below `results.length` occurs in `order`. -/
def cleanupJoin (results : List (Option GoError)) (order : List Nat) : List Event :=
  order.flatMap (cleanupGoroutine results)

/-- Embedding of the tail of `StartWithGracefulShutdown` after the join
(src/srv/srv.go lines 116-123): `srv.Shutdown(shutdownCtx)` is called; an
error is logged and followed by `os.Exit(1)`, otherwise the completion notice
is logged. -/
def serverShutdownStep (srvShutdownErr : Option GoError) : List Event :=
  Event.serverShutdownCalled ::
    (match srvShutdownErr with
     | some _ => [Event.serverShutdownFailed, Event.exited 1]
     | none => [Event.shutdownComplete])

/-- Embedding of the main flow of `StartWithGracefulShutdown` (src/srv/srv.go
lines 49-123) as the sequence of events it emits, for runs in which the
watchdog does not fire (the timed model below covers the watchdog).
Parameters model the environment: `tlsLoadOk` is whether
`tls.LoadX509KeyPair` succeeds, `results` the outcomes of the cleanup
handlers, `order` their completion order, `srvShutdownErr` the result of
`srv.Shutdown`. When TLS is enabled and the key pair fails to load, the run is
only the error log and `os.Exit(1)` — lines 61-66 execute before the signal
context, the serve goroutine and the cleanup handlers exist. Otherwise the
trace is: server goroutine spawned, block on `<-ctx.Done()`, cleanup fan-out
and join, then the listener shutdown step. -/
def startWithGracefulShutdown (cfg : ServerConfig) (tlsLoadOk : Bool)
    (results : List (Option GoError)) (order : List Nat)
    (srvShutdownErr : Option GoError) : List Event :=
  if cfg.TLSEnabled ∧ tlsLoadOk = false then
    [Event.tlsLoadFailed, Event.exited 1]
  else
    Event.serverStarted :: Event.shutdownSignalReceived ::
      (cleanupJoin results order ++ serverShutdownStep srvShutdownErr)

/-- Result of the test/embedding entry point `Start` (src/srv/srv.go lines
127-147): whether a (non-nil) `*http.Server` handle is returned, the `error`
return value, and the events of its serve goroutine. -/
structure StartResult where
  returnedServer : Bool
  returnedErr : Option GoError
  goroutineEvents : List Event
  deriving DecidableEq

/-- Embedding of the serve goroutine of `Start` (src/srv/srv.go lines 133-144):
any error other than `http.ErrServerClosed` — including a TLS load failure
inside `ListenAndServeTLS`, since `Start` passes the certificate paths there —
is logged, and nothing more: no `os.Exit` on this path. -/
def startServeGoroutine (serveErr : GoError) : List Event :=
  Event.serverStarted ::
    (if serveErr = GoError.serverClosed then [] else [Event.serveFailed])

/-- Embedding of `Start` (src/srv/srv.go lines 127-147): builds the server,
spawns the serve goroutine and returns `(srv, nil)` unconditionally. -/
def Start (cfg : ServerConfig) (serveErr : GoError) : StartResult :=
  { returnedServer := true
    returnedErr := none
    goroutineEvents := startServeGoroutine serveErr }

/-- Terminal states of the shutdown orchestrator. -/
inductive FinalState
  | stopped
  | forcedExit
  deriving DecidableEq

/-- Terminal state of a run together with the time (same clock as the handler
durations, measured from the arrival of the shutdown signal) at which it is
reached. -/
structure TimedResult where
  final : FinalState
  atTime : Nat
  deriving DecidableEq

/-- Time at which `wg.Wait()` (src/srv/srv.go line 114) returns: the maximum
of the handler durations, or `none` if some handler never returns (`none`
duration models a hung handler). -/
def joinTime : List (Option Nat) → Option Nat
  | [] => some 0
  | d :: ds =>
    match d, joinTime ds with
    | some t, some rest => some (max t rest)
    | _, _ => none

/-- Time at which the whole shutdown sequence (cleanup join followed by the
listener shutdown taking `srvShutdownDur`) would complete, ignoring the
watchdog; `none` if it never completes. -/
def completionTime (handlerDurations : List (Option Nat)) (srvShutdownDur : Nat) :
    Option Nat :=
  (joinTime handlerDurations).map (fun t => t + srvShutdownDur)

/-- Timed model of `StartWithGracefulShutdown` after the shutdown signal
(src/srv/srv.go lines 89-123). `shutdownCtx` carries deadline `timeout`
(line 92), and the watchdog goroutine (lines 96-101) calls `os.Exit(1)` at
that deadline unless the deferred `cancel()` has already run, i.e. unless the
whole sequence completed strictly before `timeout`. If every handler returns
and the join plus the listener shutdown finish before the deadline, the final
state is `stopped` when `srv.Shutdown` returned nil and `forcedExit` (exit
code 1, line 118) when it errored; in every other case the watchdog (or the
deadline-induced `srv.Shutdown` error, whichever the scheduler runs first —
both are `os.Exit(1)`) forces exit at time `timeout`. -/
def timedShutdown (timeout : Nat) (handlerDurations : List (Option Nat))
    (srvShutdownDur : Nat) (srvShutdownOk : Bool) : TimedResult :=
  match joinTime handlerDurations with
  | none => { final := FinalState.forcedExit, atTime := timeout }
  | some tJoin =>
    if timeout ≤ tJoin then
      { final := FinalState.forcedExit, atTime := timeout }
    else if timeout ≤ tJoin + srvShutdownDur then
      { final := FinalState.forcedExit, atTime := timeout }
    else if srvShutdownOk then
      { final := FinalState.stopped, atTime := tJoin + srvShutdownDur }
    else
      { final := FinalState.forcedExit, atTime := tJoin + srvShutdownDur }

/-- Every event of one cleanup goroutine is a failure log or a completion for
its own index. -/
theorem mem_cleanupGoroutine {results : List (Option GoError)} {i : Nat}
    {e : Event} (h : e ∈ cleanupGoroutine results i) :
    e = Event.cleanupFailed i ∨ e = Event.cleanupDone i := by
  unfold cleanupGoroutine at h
  split at h <;> simp_all

/-- Every event of the cleanup fan-out is a failure log or a completion. -/
theorem mem_cleanupJoin {results : List (Option GoError)} {order : List Nat}
    {e : Event} (h : e ∈ cleanupJoin results order) :
    (∃ i, e = Event.cleanupFailed i) ∨ ∃ i, e = Event.cleanupDone i := by
  unfold cleanupJoin at h
  simp only [List.mem_flatMap] at h
  obtain ⟨i, _, hm⟩ := h
  rcases mem_cleanupGoroutine hm with h1 | h1
  · exact Or.inl ⟨i, h1⟩
  · exact Or.inr ⟨i, h1⟩

/-- A handler that completes contributes its completion event to the
fan-out trace. -/
theorem cleanupDone_mem_cleanupJoin {results : List (Option GoError)}
    {order : List Nat} {i : Nat} (h : i ∈ order) :
    Event.cleanupDone i ∈ cleanupJoin results order := by
  unfold cleanupJoin
  simp only [List.mem_flatMap]
  refine ⟨i, h, ?_⟩
  unfold cleanupGoroutine
  split <;> simp

/-- A failure log for index `i` appears in one goroutine trace exactly when
that goroutine is the one for `i` and its handler errored. -/
theorem cleanupFailed_mem_cleanupGoroutine {results : List (Option GoError)}
    {i j : Nat} :
    Event.cleanupFailed i ∈ cleanupGoroutine results j ↔
      i = j ∧ (results.getD j none).isSome = true := by
  unfold cleanupGoroutine
  rcases hg : results.getD j none with _ | err <;> simp

/-- A failure log for index `i` appears in the fan-out trace exactly when `i`
is scheduled and its handler errored. -/
theorem cleanupFailed_mem_cleanupJoin {results : List (Option GoError)}
    {order : List Nat} {i : Nat} :
    Event.cleanupFailed i ∈ cleanupJoin results order ↔
      i ∈ order ∧ (results.getD i none).isSome = true := by
  unfold cleanupJoin
  simp only [List.mem_flatMap, cleanupFailed_mem_cleanupGoroutine]
  constructor
  · rintro ⟨j, hj, rfl, hs⟩
    exact ⟨hj, hs⟩
  · rintro ⟨hi, hs⟩
    exact ⟨i, hi, rfl, hs⟩

/-- The guard of the TLS branch is false whenever TLS is disabled or the key
pair loads. -/
theorem tls_guard_false {cfg : ServerConfig} {tlsLoadOk : Bool}
    (hTLS : cfg.TLSEnabled = true → tlsLoadOk = true) :
    ¬(cfg.TLSEnabled = true ∧ tlsLoadOk = false) := by
  rintro ⟨h1, h2⟩
  rw [hTLS h1] at h2
  cases h2

/-- C1: in `StartWithGracefulShutdown`, for every set of registered cleanup
handlers (arbitrary results and completion order, given that `wg.Wait()`
returns, i.e. every handler index completes), the listener shutdown call
`srv.Shutdown` occurs exactly once in the run, and every cleanup handler has
returned (its `cleanupDone` event is in the prefix) before it. -/
theorem srv_shutdown_after_cleanup_join
    (cfg : ServerConfig) (tlsLoadOk : Bool) (results : List (Option GoError))
    (order : List Nat) (srvShutdownErr : Option GoError)
    (hTLS : cfg.TLSEnabled = true → tlsLoadOk = true)
    (hJoin : ∀ i, i < results.length → i ∈ order) :
    ∃ pre post,
      startWithGracefulShutdown cfg tlsLoadOk results order srvShutdownErr =
        pre ++ Event.serverShutdownCalled :: post ∧
      Event.serverShutdownCalled ∉ pre ∧
      Event.serverShutdownCalled ∉ post ∧
      ∀ i, i < results.length → Event.cleanupDone i ∈ pre := by
  have hnotin : Event.serverShutdownCalled ∉ cleanupJoin results order := by
    intro hmem
    rcases mem_cleanupJoin hmem with ⟨i, h1⟩ | ⟨i, h1⟩ <;> cases h1
  refine ⟨Event.serverStarted :: Event.shutdownSignalReceived ::
      cleanupJoin results order,
    (match srvShutdownErr with
     | some _ => [Event.serverShutdownFailed, Event.exited 1]
     | none => [Event.shutdownComplete]), ?_, ?_, ?_, ?_⟩
  · unfold startWithGracefulShutdown
    rw [if_neg (tls_guard_false hTLS)]
    rcases srvShutdownErr with _ | err <;> simp [serverShutdownStep]
  · simp only [List.mem_cons]
    rintro (h | h | h) <;> first
      | cases h
      | exact hnotin h
  · rcases srvShutdownErr with _ | err <;> simp
  · intro i hi
    simp only [List.mem_cons]
    exact Or.inr (Or.inr (cleanupDone_mem_cleanupJoin (hJoin i hi)))

/-- Witness for C1 at a concrete run: two handlers, the first failing, the
scheduler completing them in reverse order, listener shutdown succeeding. -/
theorem srv_shutdown_after_cleanup_join_witness :
    ∃ pre post,
      startWithGracefulShutdown
          { TLSCertPath := "", TLSKeyPath := "", Port := 8080, TLSEnabled := false }
          true [some (GoError.other "db close failed"), none] [1, 0] none =
        pre ++ Event.serverShutdownCalled :: post ∧
      Event.serverShutdownCalled ∉ pre ∧
      Event.serverShutdownCalled ∉ post ∧
      ∀ i, i < ([some (GoError.other "db close failed"), none] :
          List (Option GoError)).length → Event.cleanupDone i ∈ pre :=
  srv_shutdown_after_cleanup_join _ _ _ _ _ (by decide)
    (by
      intro i hi
      have hi2 : i < 2 := by simpa using hi
      interval_cases i <;> decide)

/-- C4: a cleanup handler returning an error only produces a log entry: with
the listener shutdown itself returning nil, every handler still completes, no
`os.Exit` occurs anywhere in the run, the run ends with the clean
shutdown-complete notice (final state Stopped), and a failure log for index
`i` appears exactly when handler `i` ran and errored. -/
theorem cleanup_failure_nonfatal
    (cfg : ServerConfig) (tlsLoadOk : Bool) (results : List (Option GoError))
    (order : List Nat)
    (hTLS : cfg.TLSEnabled = true → tlsLoadOk = true)
    (hJoin : ∀ i, i < results.length → i ∈ order) :
    (∀ i, i < results.length →
      Event.cleanupDone i ∈ startWithGracefulShutdown cfg tlsLoadOk results order none) ∧
    (∀ c, Event.exited c ∉ startWithGracefulShutdown cfg tlsLoadOk results order none) ∧
    (startWithGracefulShutdown cfg tlsLoadOk results order none).getLast? =
      some Event.shutdownComplete ∧
    (∀ i, Event.cleanupFailed i ∈
        startWithGracefulShutdown cfg tlsLoadOk results order none ↔
      i ∈ order ∧ (results.getD i none).isSome = true) := by
  unfold startWithGracefulShutdown
  rw [if_neg (tls_guard_false hTLS)]
  refine ⟨?_, ?_, ?_, ?_⟩
  · intro i hi
    simp only [List.mem_cons, List.mem_append]
    exact Or.inr (Or.inr (Or.inl (cleanupDone_mem_cleanupJoin (hJoin i hi))))
  · intro c hmem
    simp only [serverShutdownStep, List.mem_cons, List.mem_append,
      List.mem_singleton, List.not_mem_nil, or_false] at hmem
    rcases hmem with h | h | h | h | h <;> first
      | cases h
      | (rcases mem_cleanupJoin h with ⟨i, h1⟩ | ⟨i, h1⟩ <;> cases h1)
  · have heq : Event.serverStarted :: Event.shutdownSignalReceived ::
        (cleanupJoin results order ++ serverShutdownStep none) =
        (Event.serverStarted :: Event.shutdownSignalReceived ::
          (cleanupJoin results order ++ [Event.serverShutdownCalled])) ++
          [Event.shutdownComplete] := by
      simp [serverShutdownStep]
    rw [heq, List.getLast?_concat]
  · intro i
    simp only [List.mem_cons, List.mem_append, serverShutdownStep,
      cleanupFailed_mem_cleanupJoin]
    simp

/-- Witness for C4 at a concrete run: the first of two handlers fails and is
logged, both complete, no exit, final event is the clean completion. -/
theorem cleanup_failure_nonfatal_witness :
    (∀ i, i < ([some (GoError.other "pool drain"), none] :
        List (Option GoError)).length →
      Event.cleanupDone i ∈ startWithGracefulShutdown
        { TLSCertPath := "", TLSKeyPath := "", Port := 80, TLSEnabled := false }
        true [some (GoError.other "pool drain"), none] [0, 1] none) ∧
    (∀ c, Event.exited c ∉ startWithGracefulShutdown
        { TLSCertPath := "", TLSKeyPath := "", Port := 80, TLSEnabled := false }
        true [some (GoError.other "pool drain"), none] [0, 1] none) ∧
    (startWithGracefulShutdown
        { TLSCertPath := "", TLSKeyPath := "", Port := 80, TLSEnabled := false }
        true [some (GoError.other "pool drain"), none] [0, 1] none).getLast? =
      some Event.shutdownComplete ∧
    (∀ i, Event.cleanupFailed i ∈ startWithGracefulShutdown
        { TLSCertPath := "", TLSKeyPath := "", Port := 80, TLSEnabled := false }
        true [some (GoError.other "pool drain"), none] [0, 1] none ↔
      i ∈ [0, 1] ∧ (([some (GoError.other "pool drain"), none] :
        List (Option GoError)).getD i none).isSome = true) :=
  cleanup_failure_nonfatal _ _ _ _ (by decide)
    (by
      intro i hi
      have hi2 : i < 2 := by simpa using hi
      interval_cases i <;> decide)

/-- C6: with TLS enabled and the certificate/key pair failing to load, the run
of `StartWithGracefulShutdown` is exactly the failure log followed by
`os.Exit(1)`: the serve goroutine is never spawned and no cleanup handler
event occurs. -/
theorem tls_load_failure_fatal_immediate
    (cfg : ServerConfig) (results : List (Option GoError)) (order : List Nat)
    (srvShutdownErr : Option GoError) (hTLS : cfg.TLSEnabled = true) :
    startWithGracefulShutdown cfg false results order srvShutdownErr =
      [Event.tlsLoadFailed, Event.exited 1] ∧
    Event.serverStarted ∉
      startWithGracefulShutdown cfg false results order srvShutdownErr ∧
    (∀ i, Event.cleanupDone i ∉
      startWithGracefulShutdown cfg false results order srvShutdownErr) ∧
    Event.exited 1 ∈
      startWithGracefulShutdown cfg false results order srvShutdownErr := by
  have htr : startWithGracefulShutdown cfg false results order srvShutdownErr =
      [Event.tlsLoadFailed, Event.exited 1] := by
    unfold startWithGracefulShutdown
    rw [if_pos ⟨hTLS, rfl⟩]
  refine ⟨htr, ?_, ?_, ?_⟩ <;> rw [htr] <;> simp

/-- Witness for C6 at a concrete configuration with a bad certificate path. -/
theorem tls_load_failure_fatal_immediate_witness :
    startWithGracefulShutdown
        { TLSCertPath := "/missing/cert.pem", TLSKeyPath := "/missing/key.pem",
          Port := 8443, TLSEnabled := true }
        false [some (GoError.other "db")] [0] none =
      [Event.tlsLoadFailed, Event.exited 1] ∧
    Event.serverStarted ∉ startWithGracefulShutdown
        { TLSCertPath := "/missing/cert.pem", TLSKeyPath := "/missing/key.pem",
          Port := 8443, TLSEnabled := true }
        false [some (GoError.other "db")] [0] none ∧
    (∀ i, Event.cleanupDone i ∉ startWithGracefulShutdown
        { TLSCertPath := "/missing/cert.pem", TLSKeyPath := "/missing/key.pem",
          Port := 8443, TLSEnabled := true }
        false [some (GoError.other "db")] [0] none) ∧
    Event.exited 1 ∈ startWithGracefulShutdown
        { TLSCertPath := "/missing/cert.pem", TLSKeyPath := "/missing/key.pem",
          Port := 8443, TLSEnabled := true }
        false [some (GoError.other "db")] [0] none :=
  tls_load_failure_fatal_immediate _ _ _ _ rfl

/-- C2: after cancellation, the shutdown sequence is reached by the watchdog
deadline in every case: the terminal state is attained no later than the grace
period, and whenever the sequence cannot complete strictly before the grace
period elapses (a handler hangs, or the join plus the listener shutdown take
at least `timeout`), the terminal state is the forced exit. -/
theorem graceful_shutdown_bounded
    (timeout : Nat) (handlerDurations : List (Option Nat))
    (srvShutdownDur : Nat) (srvShutdownOk : Bool) :
    (timedShutdown timeout handlerDurations srvShutdownDur srvShutdownOk).atTime ≤
      timeout ∧
    (completionTime handlerDurations srvShutdownDur = none →
      (timedShutdown timeout handlerDurations srvShutdownDur srvShutdownOk).final =
        FinalState.forcedExit) ∧
    (∀ T, completionTime handlerDurations srvShutdownDur = some T → timeout ≤ T →
      (timedShutdown timeout handlerDurations srvShutdownDur srvShutdownOk).final =
        FinalState.forcedExit) := by
  unfold timedShutdown completionTime
  rcases h : joinTime handlerDurations with _ | tJoin
  · simp
  · simp only [Option.map_some']
    split_ifs with h1 h2 h3 <;>
      refine ⟨by dsimp only; omega, by simp, ?_⟩ <;>
      intro T hT hle <;>
      first
        | rfl
        | (injection hT with hT2; omega)

/-- Witness for C2: grace period 100, one handler needing 500 — forced exit at
the deadline; the bound and the forced-exit implication discharged at that
input. -/
theorem graceful_shutdown_bounded_witness :
    (timedShutdown 100 [some 500] 0 true).atTime ≤ 100 ∧
    (timedShutdown 100 [some 500] 0 true).final = FinalState.forcedExit :=
  ⟨(graceful_shutdown_bounded 100 [some 500] 0 true).1,
   (graceful_shutdown_bounded 100 [some 500] 0 true).2.2 500 (by decide) (by decide)⟩

/-- C3 counterexample: a hangup signal delivered to the cancellation context
registered by `StartWithGracefulShutdown` (which registers only SIGINT and
SIGTERM, src/srv/srv.go line 71) leaves the context uncancelled, so hangup
does not initiate that shutdown sequence — refuting the claim that any of the
four termination signals does. -/
theorem sighup_does_not_cancel_srv_context :
    (deliverSignal srvNotifySet { cancelled := false } Sig.sighup).cancelled =
      false ∧
    Sig.sighup ∉ srvNotifySet ∧ Sig.sigquit ∉ srvNotifySet := by decide

/-- C3 amended: the signal bridge `signals.Context` cancels its token on any
of the four termination signals (interrupt, terminate, hangup, quit), while
`StartWithGracefulShutdown` cancels only on interrupt or terminate and is
unaffected by hangup and quit; in both, the first registered signal cancels
the token and any later signal has no additional effect (delivery to an
already-cancelled token changes nothing). -/
theorem signal_cancellation_exactly_once :
    (∀ tok : LifecycleToken, ∀ s : Sig,
      (deliverSignal signalsNotifySet tok s).cancelled = true) ∧
    (∀ tok : LifecycleToken,
      (deliverSignal srvNotifySet tok Sig.sigint).cancelled = true ∧
      (deliverSignal srvNotifySet tok Sig.sigterm).cancelled = true ∧
      deliverSignal srvNotifySet tok Sig.sighup = tok ∧
      deliverSignal srvNotifySet tok Sig.sigquit = tok) ∧
    (∀ notifySet : List Sig, ∀ s : Sig,
      deliverSignal notifySet { cancelled := true } s = { cancelled := true }) := by
  refine ⟨?_, ?_, ?_⟩
  · intro tok s
    cases s <;> simp [deliverSignal, signalsNotifySet]
  · intro tok
    refine ⟨?_, ?_, ?_, ?_⟩ <;> simp [deliverSignal, srvNotifySet]
  · intro notifySet s
    unfold deliverSignal
    split <;> rfl

/-- C5: the safety-valve watchdog of `signals.Context` never fires. Whatever
time the downstream shutdown takes — the failing input being any duration
beyond the 10-second grace period, e.g. 100 — the goroutine never calls
`log.Fatal`, because `stopCtx()` (and the deferred `cancel()`) cancels
`shutdownCtx` immediately after it is created, so its error is `Canceled` and
never `DeadlineExceeded`. This contradicts the stated (and code-commented)
intent of forcing exit when the 10-second deadline is exceeded. -/
theorem signals_watchdog_never_fires (downstreamShutdownDuration : Nat) :
    signalsContextWatchdogFatal downstreamShutdownDuration = false := rfl

/-- C7: in the serve goroutine of `StartWithGracefulShutdown`, an error other
than `http.ErrServerClosed` is logged and followed by `os.Exit(1)`, while
`http.ErrServerClosed` is swallowed: the goroutine ends after the start log
with no failure log and no exit. -/
theorem serve_error_exit_policy (e : GoError) :
    (e ≠ GoError.serverClosed →
      serveGoroutine e =
        [Event.serverStarted, Event.serveFailed, Event.exited 1]) ∧
    serveGoroutine GoError.serverClosed = [Event.serverStarted] := by
  constructor
  · intro h
    simp [serveGoroutine, h]
  · simp [serveGoroutine]

/-- Witness for C7 at a concrete bind failure and at the sentinel. -/
theorem serve_error_exit_policy_witness :
    serveGoroutine (GoError.other "listen tcp :8080: address already in use") =
      [Event.serverStarted, Event.serveFailed, Event.exited 1] ∧
    serveGoroutine GoError.serverClosed = [Event.serverStarted] :=
  ⟨(serve_error_exit_policy
      (GoError.other "listen tcp :8080: address already in use")).1 (by decide),
   (serve_error_exit_policy GoError.serverClosed).2⟩

/-- C10: the test/embedding entry point `Start` returns a non-nil server
handle and an unconditionally nil error for every configuration and every
serve-loop outcome, and its serve goroutine never calls `os.Exit` — a
serve-loop failure there (for example a bad TLS certificate path) is only
logged. -/
theorem start_returns_nil_error (cfg : ServerConfig) (serveErr : GoError) :
    (Start cfg serveErr).returnedErr = none ∧
    (Start cfg serveErr).returnedServer = true ∧
    (∀ c, Event.exited c ∉ (Start cfg serveErr).goroutineEvents) ∧
    (Start cfg serveErr).goroutineEvents =
      Event.serverStarted ::
        (if serveErr = GoError.serverClosed then [] else [Event.serveFailed]) := by
  refine ⟨rfl, rfl, ?_, rfl⟩
  intro c
  simp only [Start, startServeGoroutine, List.mem_cons]
  rintro (h | h)
  · cases h
  · split at h <;> simp_all

/-- C8: contract of the `env` package accessors. For every environment and
variable name: a set variable whose value parses at the accessor type yields
the parsed value with a nil error (for `GetEnv`, any set value); an unset
variable with a default supplied yields that default with a nil error; an
unset variable with no default yields the zero value and a non-nil error. -/
theorem env_accessors_spec (st : EnvState) (name : String) :
    (∀ v ps, lookupEnv st name = some v → env.GetEnv st name ps = (v, none)) ∧
    (∀ v n ps, lookupEnv st name = some v → atoi v = some n →
      env.GetEnvAsInt st name ps = (n, none)) ∧
    (∀ v b ps, lookupEnv st name = some v → parseBool v = some b →
      env.GetEnvAsBool st name ps = (b, none)) ∧
    (∀ d ds, lookupEnv st name = none → env.GetEnv st name (d :: ds) = (d, none)) ∧
    (∀ d ds, lookupEnv st name = none →
      env.GetEnvAsInt st name (d :: ds) = (d, none)) ∧
    (∀ d ds, lookupEnv st name = none →
      env.GetEnvAsBool st name (d :: ds) = (d, none)) ∧
    (lookupEnv st name = none →
      env.GetEnv st name [] = ("", some (GoError.notSet name)) ∧
      env.GetEnvAsInt st name [] = (0, some (GoError.notSet name)) ∧
      env.GetEnvAsBool st name [] = (false, some (GoError.notSet name))) := by
  refine ⟨?_, ?_, ?_, ?_, ?_, ?_, ?_⟩ <;> intros <;>
    simp_all [env.GetEnv, env.GetEnvAsInt, env.GetEnvAsBool]

/-- Witness for C8: concrete set, set-and-parsed, defaulted and error cases
for the three accessors. -/
theorem env_accessors_spec_witness :
    env.GetEnv [("HOST", "localhost")] "HOST" [] = ("localhost", none) ∧
    env.GetEnvAsInt [("PORT", "8080")] "PORT" [] = (8080, none) ∧
    env.GetEnvAsBool [("DEBUG", "true")] "DEBUG" [] = (true, none) ∧
    env.GetEnvAsInt [] "PORT" [9090] = (9090, none) ∧
    env.GetEnvAsInt [] "PORT" [] = (0, some (GoError.notSet "PORT")) :=
  ⟨(env_accessors_spec [("HOST", "localhost")] "HOST").1 "localhost" [] (by decide),
   (env_accessors_spec [("PORT", "8080")] "PORT").2.1 "8080" 8080 [] (by decide)
     (by decide),
   (env_accessors_spec [("DEBUG", "true")] "DEBUG").2.2.1 "true" true [] (by decide)
     (by decide),
   (env_accessors_spec [] "PORT").2.2.2.2.1 9090 [] rfl,
   ((env_accessors_spec [] "PORT").2.2.2.2.2.2 rfl).2.1⟩

/-- C9: the two `GetEnvAsInt` implementations agree on the returned integer
and on whether an error occurs, for every environment, name and default list;
on an unset variable and on a successfully parsed value they return identical
results (including identical `notSet` errors), and on a type mismatch they
differ exactly in the error value: the `env` version reports an error naming
the variable, the `os` version surfaces the raw `strconv.Atoi` error carrying
the offending input. -/
theorem getEnvAsInt_refinement (st : EnvState) (name : String)
    (params : List Int) :
    (env.GetEnvAsInt st name params).1 = (os.GetEnvAsInt st name params).1 ∧
    ((env.GetEnvAsInt st name params).2 = none ↔
      (os.GetEnvAsInt st name params).2 = none) ∧
    (lookupEnv st name = none →
      env.GetEnvAsInt st name params = os.GetEnvAsInt st name params) ∧
    (∀ v n, lookupEnv st name = some v → atoi v = some n →
      env.GetEnvAsInt st name params = os.GetEnvAsInt st name params) ∧
    (∀ v, lookupEnv st name = some v → atoi v = none →
      (env.GetEnvAsInt st name params).2 = some (GoError.envIntParse name) ∧
      (os.GetEnvAsInt st name params).2 = some (GoError.atoiSyntax v) ∧
      (env.GetEnvAsInt st name params).2 ≠ (os.GetEnvAsInt st name params).2) := by
  unfold env.GetEnvAsInt os.GetEnvAsInt
  rcases hl : lookupEnv st name with _ | v
  · rcases params with _ | ⟨p, ps⟩ <;> simp
  · rcases ha : atoi v with _ | n <;> simp_all

/-- Witness for C9: agreement on a parsed value, and the two distinct error
values on the mismatch input `"abc"`. -/
theorem getEnvAsInt_refinement_witness :
    env.GetEnvAsInt [("N", "5")] "N" [] = os.GetEnvAsInt [("N", "5")] "N" [] ∧
    (env.GetEnvAsInt [("N", "abc")] "N" []).2 = some (GoError.envIntParse "N") ∧
    (os.GetEnvAsInt [("N", "abc")] "N" []).2 = some (GoError.atoiSyntax "abc") ∧
    (env.GetEnvAsInt [("N", "abc")] "N" []).2 ≠
      (os.GetEnvAsInt [("N", "abc")] "N" []).2 :=
  ⟨(getEnvAsInt_refinement [("N", "5")] "N" []).2.2.2.1 "5" 5 (by decide) (by decide),
   ((getEnvAsInt_refinement [("N", "abc")] "N" []).2.2.2.2 "abc" (by decide)
     (by decide)).1,
   ((getEnvAsInt_refinement [("N", "abc")] "N" []).2.2.2.2 "abc" (by decide)
     (by decide)).2.1,
   ((getEnvAsInt_refinement [("N", "abc")] "N" []).2.2.2.2 "abc" (by decide)
     (by decide)).2.2⟩

end MyGoPackages
